import Mathlib

/-!
Shallow embedding of `src/app.py` from the transaction-analyst repository:
the `process_data` reconciliation pipeline (WGR vs QLIRO ledgers) and the
per-VAT-rate summary computed in `display_df_with_mismatch_highlight`,
together with theorems settling the specification claims C1-C10.

Modelling conventions:
- An amount cell of the two CSVs is a `Val`: a parsed number (`num`),
  a cell that `pd.to_numeric(errors=coerce)` cannot parse (`txt`), or a
  missing cell (`nan`).  Pandas float-NaN semantics (NaN-propagating
  arithmetic, all comparisons with NaN evaluating to false, `groupby`
  dropping NaN keys, `sum` skipping NaN) are made explicit.
- Exact rationals stand in for float64; `round2` is round-half-to-even at
  two decimals, matching `Series.round(2)`.
- Timestamps are integers; `pd.to_datetime` on already well-formed data is
  the identity in the model.
- Python exceptions (`KeyError` from a missing column, `TypeError` from
  adding incompatible cells) are the `Except PyErr` monad; the
  `try ... except Exception` wrapper of `process_data` that returns `None`
  is `Except.toOption`-style collapsing in `processData`.
-/

namespace TransactionAnalyst

/-- A cell of an amount column: a parsed number, a non-numeric text cell,
or a missing value (float NaN). -/
inductive Val where
  | num (q : ℚ)
  | txt (s : String)
  | nan
  deriving DecidableEq

/-- Python exceptions that the pipeline can raise internally. -/
inductive PyErr where
  | keyError (col : String)
  | typeError (msg : String)
  deriving DecidableEq

/-- Element-wise `+` on amount cells, as pandas evaluates
`wgr_df[Total amount excl. VAT] + wgr_df[Total VAT]` (app.py line 79):
number plus number adds, string plus string concatenates, NaN propagates
through numeric addition, and mixing a string with a number or NaN raises
a TypeError. -/
def Val.add : Val → Val → Except PyErr Val
  | .num a, .num b => .ok (.num (a + b))
  | .txt a, .txt b => .ok (.txt (a ++ b))
  | .nan, .num _ => .ok .nan
  | .num _, .nan => .ok .nan
  | .nan, .nan => .ok .nan
  | _, _ => .error (.typeError "unsupported operand type")

/-- Element-wise `== 0` on amount cells (the mask of app.py line 82):
only an actual number equal to zero compares true; NaN and strings
compare false. -/
def Val.isZero : Val → Bool
  | .num q => q == 0
  | _ => false

/-- One cell under `pd.to_numeric(..., errors=coerce)` (app.py lines
97-98): numbers pass through, anything unparseable becomes NaN (`none`). -/
def toNumeric : Val → Option ℚ
  | .num q => some q
  | _ => none

/-- Floor of a rational, computed on its reduced representation. -/
def qfloor (q : ℚ) : ℤ := q.num.fdiv q.den

/-- Round-half-to-even to an integer, the tie rule of `Series.round`. -/
def rhe (q : ℚ) : ℤ :=
  let f := qfloor q
  let r := q - (f : ℚ)
  if r < 1/2 then f
  else if 1/2 < r then f + 1
  else if f % 2 = 0 then f else f + 1

/-- `Series.round(2)`: round to two decimal places, ties to even. -/
def round2 (q : ℚ) : ℚ := (rhe (q * 100) : ℚ) / 100

/-- NaN-propagating subtraction of two coerced amount columns
(app.py line 108). -/
def osub : Option ℚ → Option ℚ → Option ℚ
  | some a, some b => some (a - b)
  | _, _ => none

/-- The mismatch test `Amount Difference.abs() > 0.01` (app.py line 111);
a NaN difference compares false, as every pandas comparison with NaN does. -/
def absGt (d : Option ℚ) : Bool :=
  match d with
  | some q => decide (1/100 < |q|)
  | none => false

/-- One row of the WGR (warehouse) CSV, restricted to the columns the
pipeline touches.  `vatRate = none` models a NaN cell in
`Average VAT rate (%)`. -/
structure WgrRow where
  orderId : String
  amountExclVat : Val
  vatAmount : Val
  priceExclVat : ℚ
  vatRate : Option ℚ
  paymentMethod : String
  orderTime : ℤ
  deriving DecidableEq

/-- One row of the QLIRO (settlement) CSV, restricted to the columns the
pipeline touches. -/
structure QliroRow where
  orderId : String
  belopp : Val
  status : String
  settlementDate : ℤ
  transEndDate : ℤ
  payRef : String
  deriving DecidableEq

/-- A WGR dataframe: the set of column names present, plus the typed rows.
The column list lets the model raise the same KeyError a pandas column
lookup raises when a required column is absent. -/
structure WgrDF where
  cols : List String
  rows : List WgrRow
  deriving DecidableEq

/-- A QLIRO dataframe, analogous to `WgrDF`. -/
structure QliroDF where
  cols : List String
  rows : List QliroRow
  deriving DecidableEq

/-- Columns `process_data` selects from the WGR side (app.py line 63). -/
def wgrRequired : List String :=
  ["Order ID", "Total amount excl. VAT", "Total VAT", "Price excl. VAT",
   "Average VAT rate (%)", "Order time"]

/-- Columns `process_data` selects from the QLIRO side (app.py line 70). -/
def qliroRequired : List String :=
  ["Butiksordernummer", "Belopp", "Avräkningsstatus", "Avräkningsdatum",
   "Transaktionsslutdatum", "Betalning transaktionsreferens"]

/-- First requested column that is not present in the dataframe. -/
def findMissing (cols req : List String) : Option String :=
  req.find? (fun c => decide (c ∉ cols))

/-- A pandas column access or column projection: succeeds when every
requested column is present, otherwise raises a KeyError naming a missing
column. -/
def checkCols (cols req : List String) : Except PyErr Unit :=
  match findMissing cols req with
  | some c => .error (.keyError c)
  | none => .ok ()

/-- Removal of every occurrence of the literal token `WGR`, scanning left
to right without overlap: the semantics of
`qliro_df[Butiksordernummer].str.replace(WGR-token, empty)` at
app.py line 67. -/
def stripTok : List Char → List Char
  | 'W' :: 'G' :: 'R' :: rest => stripTok rest
  | c :: rest => c :: stripTok rest
  | [] => []

/-- The join-key normalisation applied to each QLIRO order id. -/
def fixOrderId (s : String) : String := ⟨stripTok s.data⟩

/-- True when the character list contains an occurrence of the token. -/
def hasTok : List Char → Bool
  | 'W' :: 'G' :: 'R' :: _ => true
  | _ :: rest => hasTok rest
  | [] => false

/-- Modelled from the spec: stripping exactly one literal prefix token
from the front of the identifier and preserving everything else, the
behaviour claim C8 attributes to the join-key normalisation.  Used only
to compare against `fixOrderId`. -/
def stripOnceWgr (s : String) : String :=
  match s.data with
  | 'W' :: 'G' :: 'R' :: rest => ⟨rest⟩
  | _ => s

/-- The `Total Paid WGR` derivation for one row (app.py lines 79-83):
the sum of the two amount cells, replaced by the fallback
`Price excl. VAT * (1 + Average VAT rate (%) / 100)` when that sum
compares equal to zero. -/
def fallback (r : WgrRow) : Val :=
  match r.vatRate with
  | some v => .num (r.priceExclVat * (1 + v / 100))
  | none => .nan

/-- Derived total-paid cell of one WGR row, with the zero fallback. -/
def wgrTotalPaid (r : WgrRow) : Except PyErr Val :=
  match r.amountExclVat.add r.vatAmount with
  | .error er => .error er
  | .ok t => .ok (if t.isZero then fallback r else t)

/-- The total-paid derivation over the whole filtered WGR frame; the
first row whose cells cannot be added aborts the step with the pandas
TypeError, mirroring the column-wise evaluation. -/
def wgrPaidRows : List WgrRow → Except PyErr (List (WgrRow × Val))
  | [] => .ok []
  | r :: rest =>
    match wgrTotalPaid r with
    | .error er => .error er
    | .ok t =>
      match wgrPaidRows rest with
      | .error er => .error er
      | .ok l => .ok ((r, t) :: l)

/-- One row of the merged dataframe after app.py lines 85-111: all columns
of both sides (minus the dropped QLIRO join key), the coerced and rounded
amount columns, the rounded difference, and the mismatch flag. -/
structure MergedRow where
  orderId : String
  amountExclVat : Val
  vatAmount : Val
  priceExclVat : ℚ
  vatRate : Option ℚ
  orderTime : ℤ
  totalPaid : Option ℚ
  belopp : Option ℚ
  amountDifference : Option ℚ
  amountMismatch : Bool
  status : String
  settlementDate : ℤ
  transEndDate : ℤ
  payRef : String
  deriving DecidableEq

/-- Build one merged row from a WGR row (with its derived total-paid
cell) and a QLIRO row: `pd.to_numeric(errors=coerce)` on the two amount
columns (lines 97-98), `round(2)` on each (lines 104-105), the rounded
difference (line 108) and the mismatch flag (line 111). -/
def mkMerged (r : WgrRow) (t : Val) (q : QliroRow) : MergedRow :=
  let tp := (toNumeric t).map round2
  let b := (toNumeric q.belopp).map round2
  let d := (osub tp b).map round2
  { orderId := r.orderId
    amountExclVat := r.amountExclVat
    vatAmount := r.vatAmount
    priceExclVat := r.priceExclVat
    vatRate := r.vatRate
    orderTime := r.orderTime
    totalPaid := tp
    belopp := b
    amountDifference := d
    amountMismatch := absGt d
    status := q.status
    settlementDate := q.settlementDate
    transEndDate := q.transEndDate
    payRef := q.payRef }

/-- The inner join of app.py lines 85-91 on the normalised order ids:
each WGR row pairs with every QLIRO row carrying the same key. -/
def buildMerged (wp : List (WgrRow × Val)) (qr : List QliroRow) : List MergedRow :=
  wp.flatMap (fun p => (qr.filter (fun q => q.orderId == p.1.orderId)).map
    (fun q => mkMerged p.1 p.2 q))

/-- Which timestamp column drives the period classification: the
selectbox of app.py line 49 offers the settlement date and the order
time. -/
inductive DateCol where
  | settlement
  | orderTime
  deriving DecidableEq

/-- The selected date column of a merged row. -/
def getDate (dc : DateCol) (m : MergedRow) : ℤ :=
  match dc with
  | .settlement => m.settlementDate
  | .orderTime => m.orderTime

/-- The in-period filter of app.py line 130: both bounds inclusive. -/
def inPeriodB (s e : ℤ) (dc : DateCol) (m : MergedRow) : Bool :=
  decide (s ≤ getDate dc m) && decide (getDate dc m ≤ e)

/-- The ahead-of-period filter of app.py line 133: strictly after the end
bound. -/
def aheadB (e : ℤ) (dc : DateCol) (m : MergedRow) : Bool :=
  decide (e < getDate dc m)

/-- The result dictionary of app.py lines 135-138: the three groups are
always populated together from the one merged frame. -/
structure Results where
  all_matched : List MergedRow
  in_period : List MergedRow
  ahead_of_period : List MergedRow
  deriving DecidableEq

/-- Assemble the three result groups from the merged frame. -/
def buildResults (merged : List MergedRow) (s e : ℤ) (dc : DateCol) : Results :=
  { all_matched := merged
    in_period := merged.filter (inPeriodB s e dc)
    ahead_of_period := merged.filter (aheadB e dc) }

/-- The body of the `try` block of `process_data` (app.py lines 58-139):
filter WGR to the checkout provider, project both frames to their
required columns (raising a KeyError when one is absent), normalise the
QLIRO join keys, derive total-paid, inner-join, reconcile, and classify
by period. -/
def processDataE (wgr : WgrDF) (qliro : QliroDF) (startD endD : ℤ) (dc : DateCol) :
    Except PyErr Results :=
  match checkCols wgr.cols ["Payment method"] with
  | .error er => .error er
  | .ok _ =>
    match checkCols wgr.cols wgrRequired with
    | .error er => .error er
    | .ok _ =>
      match checkCols qliro.cols ["Butiksordernummer"] with
      | .error er => .error er
      | .ok _ =>
        match checkCols qliro.cols qliroRequired with
        | .error er => .error er
        | .ok _ =>
          match wgrPaidRows (wgr.rows.filter (fun r => r.paymentMethod == "QLIROCHECKOUT")) with
          | .error er => .error er
          | .ok wp =>
            .ok (buildResults
              (buildMerged wp (qliro.rows.map (fun r => { r with orderId := fixOrderId r.orderId })))
              startD endD dc)

/-- `process_data` as its caller sees it: the `try ... except Exception`
wrapper of app.py lines 58-143 catches every internal exception, reports
it to the UI, and returns `None`; otherwise the result dictionary is
returned. -/
def processData (wgr : WgrDF) (qliro : QliroDF) (startD endD : ℤ) (dc : DateCol) :
    Option Results :=
  match processDataE wgr qliro startD endD dc with
  | .ok r => some r
  | .error _ => none

/-- Sum of an amount column, skipping NaN cells: pandas `sum` semantics. -/
def nsum (l : List (Option ℚ)) : ℚ :=
  (l.filterMap id).sum

/-- The group keys of `df.groupby(Average VAT rate (%))` (app.py line
153): the distinct VAT rates that are actually present; rows whose rate
is NaN contribute no key because pandas groupby drops null keys. -/
def summaryKeys (rows : List MergedRow) : List ℚ :=
  (rows.filterMap (fun r => r.vatRate)).dedup

/-- The per-VAT-rate summary of app.py lines 153-161: for each present
rate, the sums of total paid, settled amount and amount difference over
the rows carrying that rate, each rounded to two decimals. -/
def vatSummary (rows : List MergedRow) : List (ℚ × ℚ × ℚ × ℚ) :=
  (summaryKeys rows).map (fun k =>
    let g := rows.filter (fun r => decide (r.vatRate = some k))
    (k, round2 (nsum (g.map (fun r => r.totalPaid))),
     round2 (nsum (g.map (fun r => r.belopp))),
     round2 (nsum (g.map (fun r => r.amountDifference)))))

attribute [local semireducible] Rat.add Rat.sub Rat.mul Rat.inv Rat.ofScientific

/-- Sample WGR row: scenario A of the specification. -/
def wRow : WgrRow :=
  { orderId := "1001", amountExclVat := .num 80, vatAmount := .num 20,
    priceExclVat := 80, vatRate := some 25,
    paymentMethod := "QLIROCHECKOUT", orderTime := 5 }

/-- Sample QLIRO row matching `wRow` after the key normalisation. -/
def qRow : QliroRow :=
  { orderId := "WGR1001", belopp := .num 100, status := "Betald",
    settlementDate := 10, transEndDate := 12, payRef := "ref1" }

/-- Sample WGR dataframe with every required column present. -/
def wDF : WgrDF := ⟨"Payment method" :: wgrRequired, [wRow]⟩

/-- Sample QLIRO dataframe with every required column present. -/
def qDF : QliroDF := ⟨qliroRequired, [qRow]⟩

/-- The merged row the samples produce. -/
def mRow : MergedRow := mkMerged wRow (.num 100) qRow

/-- Sample WGR dataframe missing the Payment method column. -/
def wNoPm : WgrDF := ⟨wgrRequired, [wRow]⟩

/-- Sample QLIRO row whose settled amount is a non-numeric cell. -/
def qRowBad : QliroRow :=
  { orderId := "WGR1001", belopp := .txt "abc", status := "Betald",
    settlementDate := 10, transEndDate := 12, payRef := "ref2" }

/-- Sample QLIRO dataframe carrying the malformed settled amount. -/
def qDFBad : QliroDF := ⟨qliroRequired, [qRowBad]⟩

/-- The merged row produced from the malformed settlement sample. -/
def mRowBad : MergedRow := mkMerged wRow (.num 100) qRowBad

/-- Sample WGR row whose VAT rate cell is missing (NaN). -/
def wRowNoRate : WgrRow :=
  { orderId := "2002", amountExclVat := .num 50, vatAmount := .num 10,
    priceExclVat := 40, vatRate := none,
    paymentMethod := "QLIROCHECKOUT", orderTime := 6 }

/-- A merged row whose VAT rate is missing, for the summary claims. -/
def mRowNoRate : MergedRow := mkMerged wRowNoRate (.num 60) qRow

/-- Every successful call of `processData` returns the groups that
`buildResults` assembles from the merged frame of `buildMerged`. -/
theorem processData_result (wgr : WgrDF) (qliro : QliroDF) (s e : ℤ) (dc : DateCol) :
    processData wgr qliro s e dc = none ∨
    ∃ wp, wgrPaidRows (wgr.rows.filter (fun r => r.paymentMethod == "QLIROCHECKOUT")) = .ok wp ∧
      processData wgr qliro s e dc =
        some (buildResults
          (buildMerged wp (qliro.rows.map (fun r => { r with orderId := fixOrderId r.orderId })))
          s e dc) := by
  unfold processData processDataE
  cases checkCols wgr.cols ["Payment method"] with
  | error er => exact Or.inl rfl
  | ok u =>
    cases checkCols wgr.cols wgrRequired with
    | error er => exact Or.inl rfl
    | ok u2 =>
      cases checkCols qliro.cols ["Butiksordernummer"] with
      | error er => exact Or.inl rfl
      | ok u3 =>
        cases checkCols qliro.cols qliroRequired with
        | error er => exact Or.inl rfl
        | ok u4 =>
          cases hwp : wgrPaidRows (wgr.rows.filter (fun r => r.paymentMethod == "QLIROCHECKOUT")) with
          | error er => exact Or.inl rfl
          | ok wp => exact Or.inr ⟨wp, rfl, rfl⟩

/-- Every row of the merged frame arises from one WGR row with its derived
total-paid cell and one QLIRO row with the same normalised key. -/
theorem mem_buildMerged {row : MergedRow} {wp : List (WgrRow × Val)} {qr : List QliroRow}
    (h : row ∈ buildMerged wp qr) :
    ∃ p, p ∈ wp ∧ ∃ b, b ∈ qr ∧ row = mkMerged p.1 p.2 b := by
  rcases List.mem_flatMap.1 h with ⟨p, hp, hrow⟩
  rcases List.mem_map.1 hrow with ⟨b, hb, rfl⟩
  exact ⟨p, hp, b, (List.mem_filter.1 hb).1, rfl⟩

/-- The mismatch test succeeds exactly on a present difference whose
absolute value exceeds the tolerance. -/
theorem absGt_eq_true_iff (d : Option ℚ) :
    absGt d = true ↔ ∃ x, d = some x ∧ 1/100 < |x| := by
  cases d with
  | none => simp [absGt]
  | some q => simp [absGt]

/-- C1: in every result group of a successful `process_data` call, the
mismatch flag of a merged record is true exactly when the absolute value
of its amount difference exceeds 0.01; in particular a record whose
difference is exactly 0.01 in absolute value is not flagged. -/
theorem c1_mismatch_iff (wgr : WgrDF) (qliro : QliroDF) (s e : ℤ) (dc : DateCol)
    (res : Results) (h : processData wgr qliro s e dc = some res)
    (row : MergedRow) (hm : row ∈ res.all_matched) :
    (row.amountMismatch = true ↔ ∃ d, row.amountDifference = some d ∧ 1/100 < |d|) ∧
    (∀ d : ℚ, row.amountDifference = some d → |d| = 1/100 → row.amountMismatch = false) := by
  rcases processData_result wgr qliro s e dc with hn | ⟨wp, hwp, hsome⟩
  · rw [h] at hn; cases hn
  · rw [h] at hsome
    injection hsome with hres
    subst hres
    rcases mem_buildMerged hm with ⟨p, hp, b, hb, rfl⟩
    have hflag : (mkMerged p.1 p.2 b).amountMismatch
        = absGt ((mkMerged p.1 p.2 b).amountDifference) := rfl
    constructor
    · rw [hflag]; exact absGt_eq_true_iff _
    · intro d hd habs
      rw [hflag]
      cases hab : absGt ((mkMerged p.1 p.2 b).amountDifference) with
      | false => rfl
      | true =>
        rcases (absGt_eq_true_iff _).1 hab with ⟨x, hx, hgt⟩
        rw [hd] at hx
        injection hx with hx
        rw [← hx, habs] at hgt
        exact absurd hgt (lt_irrefl _)

/-- C1 witness at the scenario-A sample record. -/
theorem c1_witness :
    (mRow.amountMismatch = true ↔ ∃ d, mRow.amountDifference = some d ∧ 1/100 < |d|) ∧
    (∀ d : ℚ, mRow.amountDifference = some d → |d| = 1/100 → mRow.amountMismatch = false) :=
  c1_mismatch_iff wDF qDF 0 20 .settlement ⟨[mRow], [mRow], []⟩ (by decide) mRow (.head [])

/-- C3: every merged record of a successful call stores the two source
amounts already rounded to two decimals, and its amount difference is the
two-decimal rounding of the difference of those rounded amounts: rounding
is applied to each source amount before the subtraction and to the result
after it. -/
theorem c3_double_rounding (wgr : WgrDF) (qliro : QliroDF) (s e : ℤ) (dc : DateCol)
    (res : Results) (h : processData wgr qliro s e dc = some res)
    (row : MergedRow) (hm : row ∈ res.all_matched) :
    ∃ (t : Val) (bq : QliroRow),
      row.totalPaid = (toNumeric t).map round2 ∧
      row.belopp = (toNumeric bq.belopp).map round2 ∧
      row.amountDifference =
        (osub ((toNumeric t).map round2) ((toNumeric bq.belopp).map round2)).map round2 ∧
      row.amountDifference = (osub row.totalPaid row.belopp).map round2 := by
  rcases processData_result wgr qliro s e dc with hn | ⟨wp, hwp, hsome⟩
  · rw [h] at hn; cases hn
  · rw [h] at hsome
    injection hsome with hres
    subst hres
    rcases mem_buildMerged hm with ⟨p, hp, b, hb, rfl⟩
    exact ⟨p.2, b, rfl, rfl, rfl, rfl⟩

/-- C3 witness at the scenario-A sample record. -/
theorem c3_witness :
    ∃ (t : Val) (bq : QliroRow),
      mRow.totalPaid = (toNumeric t).map round2 ∧
      mRow.belopp = (toNumeric bq.belopp).map round2 ∧
      mRow.amountDifference =
        (osub ((toNumeric t).map round2) ((toNumeric bq.belopp).map round2)).map round2 ∧
      mRow.amountDifference = (osub mRow.totalPaid mRow.belopp).map round2 :=
  c3_double_rounding wDF qDF 0 20 .settlement ⟨[mRow], [mRow], []⟩ (by decide) mRow (.head [])

/-- C4: whenever `process_data` succeeds, the in-period and ahead-of-period
groups are each subsets of the all-matched group, and no record value lies
in both period groups. -/
theorem c4_partition (wgr : WgrDF) (qliro : QliroDF) (s e : ℤ) (dc : DateCol)
    (res : Results) (h : processData wgr qliro s e dc = some res) :
    (∀ row ∈ res.in_period, row ∈ res.all_matched) ∧
    (∀ row ∈ res.ahead_of_period, row ∈ res.all_matched) ∧
    (∀ row, row ∈ res.in_period → row ∈ res.ahead_of_period → False) := by
  rcases processData_result wgr qliro s e dc with hn | ⟨wp, hwp, hsome⟩
  · rw [h] at hn; cases hn
  · rw [h] at hsome
    injection hsome with hres
    subst hres
    refine ⟨fun row hr => (List.mem_filter.1 hr).1,
            fun row hr => (List.mem_filter.1 hr).1, ?_⟩
    intro row h1 h2
    have p1 := (List.mem_filter.1 h1).2
    have p2 := (List.mem_filter.1 h2).2
    simp only [inPeriodB, aheadB, Bool.and_eq_true, decide_eq_true_eq] at p1 p2
    omega

/-- C4 witness at the sample call. -/
theorem c4_witness :
    (∀ row ∈ (Results.mk [mRow] [mRow] []).in_period,
        row ∈ (Results.mk [mRow] [mRow] []).all_matched) ∧
    (∀ row ∈ (Results.mk [mRow] [mRow] []).ahead_of_period,
        row ∈ (Results.mk [mRow] [mRow] []).all_matched) ∧
    (∀ row, row ∈ (Results.mk [mRow] [mRow] []).in_period →
        row ∈ (Results.mk [mRow] [mRow] []).ahead_of_period → False) :=
  c4_partition wDF qDF 0 20 .settlement ⟨[mRow], [mRow], []⟩ (by decide)

/-- C10: `process_data` propagates no exception: every call returns either
None (an internal error was caught) or a dictionary in which the three
groups are populated together, the two period groups being the period
filters of the one matched frame. -/
theorem c10_no_exception (wgr : WgrDF) (qliro : QliroDF) (s e : ℤ) (dc : DateCol) :
    processData wgr qliro s e dc = none ∨
    ∃ res, processData wgr qliro s e dc = some res ∧
      res.in_period = res.all_matched.filter (inPeriodB s e dc) ∧
      res.ahead_of_period = res.all_matched.filter (aheadB e dc) := by
  rcases processData_result wgr qliro s e dc with hn | ⟨wp, hwp, hsome⟩
  · exact Or.inl hn
  · exact Or.inr ⟨_, hsome, rfl, rfl⟩

/-- C7: for a WGR row with numeric amount cells, the derived total paid is
their sum, replaced by the fallback exactly when the sum is zero; and a
row with both amounts zero, unit price 80 and VAT rate 25 derives a total
paid of 100. -/
theorem c7_total_paid :
    (∀ (r : WgrRow) (a v : ℚ), r.amountExclVat = .num a → r.vatAmount = .num v →
      wgrTotalPaid r = .ok (if a + v = 0 then fallback r else .num (a + v))) ∧
    (∀ r : WgrRow, r.amountExclVat = .num 0 → r.vatAmount = .num 0 →
      r.priceExclVat = 80 → r.vatRate = some 25 →
      wgrTotalPaid r = .ok (.num 100)) := by
  constructor
  · intro r a v ha hv
    simp only [wgrTotalPaid, ha, hv, Val.add, Val.isZero]
    by_cases hz : a + v = 0
    · simp [hz]
    · simp [hz]
  · intro r h0a h0v hp hv
    simp only [wgrTotalPaid, h0a, h0v, Val.add, Val.isZero, fallback, hp, hv]
    norm_num

/-- C7 witness: the zero-total row of scenario C. -/
theorem c7_witness :
    wgrTotalPaid wRowNoRate = .ok (.num 60) ∧ wgrTotalPaid
      { orderId := "3", amountExclVat := .num 0, vatAmount := .num 0,
        priceExclVat := 80, vatRate := some 25,
        paymentMethod := "QLIROCHECKOUT", orderTime := 0 } = .ok (.num 100) := by
  constructor
  · have := c7_total_paid.1 wRowNoRate 50 10 rfl rfl
    simpa using this
  · exact c7_total_paid.2 _ rfl rfl rfl rfl

/-- Equality of modelled pipeline outcomes is decidable, so concrete runs
can be checked by evaluation. -/
instance {ε α : Type} [DecidableEq ε] [DecidableEq α] : DecidableEq (Except ε α) := fun a b =>
  match a, b with
  | .ok x, .ok y => if h : x = y then .isTrue (by rw [h]) else .isFalse (by simp [h])
  | .error x, .error y => if h : x = y then .isTrue (by rw [h]) else .isFalse (by simp [h])
  | .ok _, .error _ => .isFalse (by simp)
  | .error _, .ok _ => .isFalse (by simp)

/-- NaN propagates through the subtraction from the left. -/
theorem osub_none_left (x : Option ℚ) : osub none x = none := by
  cases x <;> rfl

/-- NaN propagates through the subtraction from the right. -/
theorem osub_none_right (x : Option ℚ) : osub x none = none := by
  cases x <;> rfl

/-- C2 amended: a non-numeric amount coerces to the NaN sentinel without
raising, and a merged record carrying the sentinel in either amount gets a
NaN amount difference and a FALSE mismatch flag: the comparison with NaN
evaluates to false, so such records are classified as matching rather than
as mismatches. -/
theorem c2_nan_flag (wgr : WgrDF) (qliro : QliroDF) (s e : ℤ) (dc : DateCol)
    (res : Results) (h : processData wgr qliro s e dc = some res)
    (row : MergedRow) (hm : row ∈ res.all_matched)
    (hnan : row.totalPaid = none ∨ row.belopp = none) :
    row.amountDifference = none ∧ row.amountMismatch = false := by
  rcases processData_result wgr qliro s e dc with hn | ⟨wp, hwp, hsome⟩
  · rw [h] at hn; cases hn
  · rw [h] at hsome
    injection hsome with hres
    subst hres
    rcases mem_buildMerged hm with ⟨p, hp, b, hb, rfl⟩
    have hdiff : (mkMerged p.1 p.2 b).amountDifference = none := by
      show (osub ((toNumeric p.2).map round2) ((toNumeric b.belopp).map round2)).map round2
        = none
      rcases hnan with hnp | hnb
      · have hz : (toNumeric p.2).map round2 = none := hnp
        rw [hz, osub_none_left]
        rfl
      · have hz : (toNumeric b.belopp).map round2 = none := hnb
        rw [hz, osub_none_right]
        rfl
    refine ⟨hdiff, ?_⟩
    show absGt ((mkMerged p.1 p.2 b).amountDifference) = false
    rw [hdiff]
    rfl

/-- C2 witness at the malformed-settlement sample record. -/
theorem c2_witness :
    mRowBad.amountDifference = none ∧ mRowBad.amountMismatch = false :=
  c2_nan_flag wDF qDFBad 0 20 .settlement ⟨[mRowBad], [mRowBad], []⟩ (by decide)
    mRowBad (.head []) (Or.inr rfl)

/-- C2 counterexample: the merged record with a non-numeric settled amount
is produced without aborting the batch and its settled amount coerces to
the NaN sentinel, yet its mismatch flag is FALSE: the record is not
classified as a mismatch, contrary to the claim. -/
theorem c2_counterexample :
    processData wDF qDFBad 0 20 .settlement = some ⟨[mRowBad], [mRowBad], []⟩ ∧
    mRowBad.belopp = none ∧ mRowBad.amountMismatch = false := by decide

/-- A column check either succeeds, and then every requested column is
present, or raises a KeyError naming a requested column that is absent. -/
theorem checkCols_cases (cols req : List String) :
    (checkCols cols req = .ok () ∧ ∀ c ∈ req, c ∈ cols) ∨
    (∃ c, c ∈ req ∧ c ∉ cols ∧ checkCols cols req = .error (.keyError c)) := by
  unfold checkCols findMissing
  cases hf : req.find? (fun c => decide (c ∉ cols)) with
  | none =>
    refine Or.inl ⟨rfl, fun c hc => ?_⟩
    have hp := List.find?_eq_none.1 hf c hc
    simpa using hp
  | some c =>
    refine Or.inr ⟨c, List.mem_of_find?_eq_some hf, ?_, rfl⟩
    have hp := List.find?_some hf
    simpa using hp

/-- C5 amended: whenever a required column is absent from either input -
any of the WGR columns accessed (Payment method and the six projected
ones) or any of the QLIRO columns - the first failing column access raises
a KeyError naming only a genuinely missing column: there is no SchemaError
type and no source-side information, and the except-block of
`process_data` swallows the error, returning None to the caller instead of
propagating anything typed. -/
theorem c5_missing_column (wgr : WgrDF) (qliro : QliroDF) (s e : ℤ) (dc : DateCol)
    (h : (∃ c ∈ "Payment method" :: wgrRequired, c ∉ wgr.cols) ∨
         (∃ c ∈ qliroRequired, c ∉ qliro.cols)) :
    ∃ c, ((c ∈ "Payment method" :: wgrRequired ∧ c ∉ wgr.cols) ∨
          (c ∈ qliroRequired ∧ c ∉ qliro.cols)) ∧
      processDataE wgr qliro s e dc = .error (.keyError c) ∧
      processData wgr qliro s e dc = none := by
  unfold processData processDataE
  rcases checkCols_cases wgr.cols ["Payment method"] with ⟨hok1, hall1⟩ | ⟨c, hcm, hcn, herr⟩
  · rw [hok1]
    rcases checkCols_cases wgr.cols wgrRequired with ⟨hok2, hall2⟩ | ⟨c, hcm, hcn, herr⟩
    · rw [hok2]
      rcases checkCols_cases qliro.cols ["Butiksordernummer"] with ⟨hok3, hall3⟩ | ⟨c, hcm, hcn, herr⟩
      · rw [hok3]
        rcases checkCols_cases qliro.cols qliroRequired with ⟨hok4, hall4⟩ | ⟨c, hcm, hcn, herr⟩
        · exfalso
          rcases h with ⟨c, hcm, hcn⟩ | ⟨c, hcm, hcn⟩
          · rcases List.mem_cons.1 hcm with rfl | hcm2
            · exact hcn (hall1 _ (by simp))
            · exact hcn (hall2 c hcm2)
          · exact hcn (hall4 c hcm)
        · rw [herr]
          exact ⟨c, Or.inr ⟨hcm, hcn⟩, rfl, rfl⟩
      · rw [herr]
        refine ⟨c, Or.inr ⟨?_, hcn⟩, rfl, rfl⟩
        have hc : c = "Butiksordernummer" := by simpa using hcm
        subst hc
        simp [qliroRequired]
    · rw [herr]
      exact ⟨c, Or.inl ⟨List.mem_cons_of_mem _ hcm, hcn⟩, rfl, rfl⟩
  · rw [herr]
    refine ⟨c, Or.inl ⟨?_, hcn⟩, rfl, rfl⟩
    have hc : c = "Payment method" := by simpa using hcm
    subst hc
    simp

/-- C5 witness at the sample frame missing the Payment method column. -/
theorem c5_witness :
    ∃ c, ((c ∈ "Payment method" :: wgrRequired ∧ c ∉ wNoPm.cols) ∨
          (c ∈ qliroRequired ∧ c ∉ qDF.cols)) ∧
      processDataE wNoPm qDF 0 20 .settlement = .error (.keyError c) ∧
      processData wNoPm qDF 0 20 .settlement = none :=
  c5_missing_column wNoPm qDF 0 20 .settlement
    (Or.inl ⟨"Payment method", by decide, by decide⟩)

/-- C5 counterexample: at this concrete input with the Payment method
column absent, the body of `process_data` raises a KeyError naming only
the missing column, and the caller receives None - no typed SchemaError
carrying the source side is raised to it. -/
theorem c5_counterexample :
    processDataE wNoPm qDF 0 20 .orderTime = .error (.keyError "Payment method") ∧
    processData wNoPm qDF 0 20 .orderTime = none := by decide

/-- C6 amended: an inverted date range (start after end) is neither
detected nor corrected: the call succeeds normally, and its in-period
group is empty because no date can satisfy both inclusive bounds. -/
theorem c6_inverted_range (wgr : WgrDF) (qliro : QliroDF) (s e : ℤ) (dc : DateCol)
    (res : Results) (hlt : e < s) (h : processData wgr qliro s e dc = some res) :
    res.in_period = [] := by
  rcases processData_result wgr qliro s e dc with hn | ⟨wp, hwp, hsome⟩
  · rw [h] at hn; cases hn
  · rw [h] at hsome
    injection hsome with hres
    subst hres
    apply List.filter_eq_nil_iff.2
    intro m hm
    simp only [inPeriodB, Bool.and_eq_true, decide_eq_true_eq, not_and]
    intro hs
    omega

/-- C6 witness: the sample call with start 10 and end 0. -/
theorem c6_witness : (Results.mk [mRow] [] [mRow]).in_period = [] :=
  c6_inverted_range wDF qDF 10 0 .settlement ⟨[mRow], [], [mRow]⟩ (by decide) (by decide)

/-- C6 counterexample: with start 10 after end 0 the try-block body
returns a normal ok result at this concrete input - no InvalidRangeError
(no error of any kind) is signalled to the caller. -/
theorem c6_counterexample :
    processDataE wDF qDF 10 0 .settlement = .ok ⟨[mRow], [], [mRow]⟩ := by decide

/-- A character list with no occurrence of the token passes through the
removal unchanged. -/
theorem stripTok_eq_self (l : List Char) (h : hasTok l = false) : stripTok l = l := by
  induction l using stripTok.induct <;> simp_all [stripTok, hasTok]

/-- C8 amended: the key normalisation deletes every occurrence of the
literal token WGR, scanning left to right: a leading token is removed and
removal continues through the remainder, and an identifier containing no
occurrence at all is returned unchanged. -/
theorem c8_replace_all :
    (∀ s : String, fixOrderId ("WGR" ++ s) = fixOrderId s) ∧
    (∀ s : String, hasTok s.data = false → fixOrderId s = s) := by
  constructor
  · intro s
    have hd : ("WGR" ++ s).data = 'W' :: 'G' :: 'R' :: s.data := by
      rw [String.data_append]; rfl
    show (⟨stripTok ("WGR" ++ s).data⟩ : String) = ⟨stripTok s.data⟩
    rw [hd]
    simp [stripTok]
  · intro s hs
    show (⟨stripTok s.data⟩ : String) = s
    rw [stripTok_eq_self s.data hs]

/-- C8 witness: the normalisation at a prefixed and at a token-free id. -/
theorem c8_witness :
    fixOrderId ("WGR" ++ "1001") = fixOrderId "1001" ∧ fixOrderId "1001" = "1001" :=
  ⟨c8_replace_all.1 "1001", c8_replace_all.2 "1001" (by decide)⟩

/-- C8 counterexample: the code removes every occurrence of the token, not
only a leading prefix: on WGR12WGR34 it produces 1234, while stripping one
leading token as the claim describes would leave 12WGR34 with the interior
occurrence preserved. -/
theorem c8_counterexample :
    fixOrderId "WGR12WGR34" = "1234" ∧ stripOnceWgr "WGR12WGR34" = "12WGR34" ∧
    fixOrderId "WGR12WGR34" ≠ stripOnceWgr "WGR12WGR34" := by decide

/-- Rows whose VAT rate is missing contribute nothing to the key list of
the summary. -/
theorem rate_filterMap_filter (rows : List MergedRow) :
    (rows.filter (fun x => x.vatRate.isSome)).filterMap (fun x => x.vatRate) =
      rows.filterMap (fun x => x.vatRate) := by
  induction rows with
  | nil => rfl
  | cons r rest ih =>
    cases hv : r.vatRate with
    | none => simp [List.filter_cons, List.filterMap_cons, hv, ih]
    | some v => simp [List.filter_cons, List.filterMap_cons, hv, ih]

/-- Rows whose VAT rate is missing contribute to no per-rate group. -/
theorem rate_filter_filter (k : ℚ) (rows : List MergedRow) :
    (rows.filter (fun x => x.vatRate.isSome)).filter (fun r => decide (r.vatRate = some k)) =
      rows.filter (fun r => decide (r.vatRate = some k)) := by
  induction rows with
  | nil => rfl
  | cons r rest ih =>
    cases hv : r.vatRate with
    | none => simp [List.filter_cons, hv, ih]
    | some v => simp [List.filter_cons, hv, ih]

/-- C9 amended: the VAT summary is computed from the rate-carrying rows
only - rows with a missing rate are dropped by the groupby, not given a
group of their own - and each row with a present rate contributes to
exactly one group: its rate occurs in the duplicate-free key list. -/
theorem c9_vat_groups (rows : List MergedRow) :
    vatSummary rows = vatSummary (rows.filter (fun x => x.vatRate.isSome)) ∧
    (summaryKeys rows).Nodup ∧
    (∀ row ∈ rows, ∀ r : ℚ, row.vatRate = some r → r ∈ summaryKeys rows) := by
  refine ⟨?_, List.nodup_dedup _, ?_⟩
  · unfold vatSummary summaryKeys
    rw [rate_filterMap_filter]
    simp only [rate_filter_filter]
  · intro row hrow r hr
    exact List.mem_dedup.2 (List.mem_filterMap.2 ⟨row, hrow, hr⟩)

/-- C9 counterexample: a merged record whose VAT rate is missing yields an
empty summary - the groupby drops the NaN key - so the record appears in
no group at all and is silently lost from the aggregation, contrary to
the claim that it forms its own group. -/
theorem c9_counterexample :
    mRowNoRate.vatRate = none ∧ vatSummary [mRowNoRate] = [] ∧
    ([mRowNoRate] : List MergedRow) ≠ [] := by decide

end TransactionAnalyst
